import Mathlib

/-!
Verification of the windowing and alignment logic of the time-series
notebook `recipes/Time_Series/Getting_Started_with_WatsonX_AI_SDK.ipynb`.

The notebook prepares a bike-sharing series for a remote forecasting
service.  Its reproducible core is:
  * a loader cell that repairs timestamps (date column plus an hour-of-day
    column) and renders them as ISO 8601 strings;
  * a window-extraction loop that, for each start index `i`, takes the
    positional slices `input_df.iloc[i : i+context_length]` and
    `input_df.iloc[i+context_length : i+context_length+prediction_length]`,
    copies them, tags them with the identifier string `id_{i}`, and
    concatenates the pieces into `input_data` and `ground_truth_data`;
  * a plotting loop that groups `input_data` by identifier and, for each
    group, concatenates the last `history` context rows with the
    ground-truth future rows and selects the forecast rows of that
    identifier.

Rows are modelled as lists, positional slicing by the Python slice
semantics used by `iloc`, and the loop by an explicit fold over the start
offsets that threads the state (the source frame and the two accumulated
tables).
-/

namespace GraniteTS

/-- Python slice-endpoint normalisation for a sequence of length `n`:
a negative index counts from the end, and both directions clamp into
`[0, n]`.  This is the endpoint rule used by `pandas.DataFrame.iloc`. -/
def sliceIdx (n : Nat) (i : Int) : Nat :=
  if i < 0 then ((n : Int) + i).toNat else min i.toNat n

/-- Python slice `xs[a : b]` (the semantics of `df.iloc[a : b]`):
normalise both endpoints with `sliceIdx`, then take the elements whose
position lies in the half-open interval.  Out-of-range parts are silently
clamped; the result can be empty but the operation never fails. -/
def pySlice {α : Type} (xs : List α) (a b : Int) : List α :=
  (xs.drop (sliceIdx xs.length a)).take (sliceIdx xs.length b - sliceIdx xs.length a)

/-- The synthetic identifier the extraction loop assigns: `f"id_{i}"`. -/
def idName (o : Int) : String := "id_" ++ toString o

/-- Tag every row of a copied slice with the identifier of offset `o`
(the `df[id_column] = f"id_{i}"` assignment, acting on the copy). -/
def tagRows {α : Type} (o : Int) (rows : List α) : List (α × String) :=
  rows.map (fun r => (r, idName o))

/-- The context window of offset `o`: the tagged copy of
`input_df.iloc[o : o + context_length]`. -/
def contextWindow {α : Type} (series : List α) (cl : Nat) (o : Int) : List (α × String) :=
  tagRows o (pySlice series o (o + (cl : Int)))

/-- The future (ground-truth) window of offset `o`: the tagged copy of
`input_df.iloc[o + context_length : o + context_length + prediction_length]`. -/
def futureWindow {α : Type} (series : List α) (cl pl : Nat) (o : Int) : List (α × String) :=
  tagRows o (pySlice series (o + (cl : Int)) (o + (cl : Int) + (pl : Int)))

/-- The state threaded through the extraction loop: the source frame
`input_df` and the accumulated `input_data` and `ground_truth_data`. -/
structure ExtractState (α : Type) where
  series : List α
  inputData : List (α × String)
  groundTruthData : List (α × String)

/-- One iteration of the extraction loop body for a start offset `o`:
slice, copy, tag, and append to both accumulating tables.  Only the
copies are written; the source frame is read. -/
def extractStep {α : Type} (cl pl : Nat) (st : ExtractState α) (o : Int) : ExtractState α :=
  { st with
    inputData := st.inputData ++ contextWindow st.series cl o
    groundTruthData := st.groundTruthData ++ futureWindow st.series cl pl o }

/-- The whole extraction loop `for i in start_index: ...` followed by the
two `pd.concat` calls: fold the loop body over the offsets starting from
the loaded series and empty tables. -/
def extractAll {α : Type} (series : List α) (offsets : List Int) (cl pl : Nat) :
    ExtractState α :=
  offsets.foldl (extractStep cl pl) ⟨series, [], []⟩

/-- The WindowSet view of the extraction: one
(identifier, context window, future window) triple per start offset, in
the given offset order. -/
def windowSet {α : Type} (series : List α) (offsets : List Int) (cl pl : Nat) :
    List (String × List (α × String) × List (α × String)) :=
  offsets.map (fun o => (idName o, contextWindow series cl o, futureWindow series cl pl o))

/-- Validity of a start offset, following the constraint wording of the
specification: `0 <= o` and `o + context_length + prediction_length <=
len(series)`.  The notebook itself performs no such check; this
definition exists to compare the code against that contract. -/
def specValidOffset (n : Nat) (o : Int) (cl pl : Nat) : Prop :=
  0 ≤ o ∧ o + (cl : Int) + (pl : Int) ≤ (n : Int)

instance (n : Nat) (o : Int) (cl pl : Nat) : Decidable (specValidOffset n o cl pl) := by
  unfold specValidOffset; infer_instance

theorem tagRows_length {α : Type} (o : Int) (rows : List α) :
    (tagRows o rows).length = rows.length := by
  simp [tagRows]

theorem windowSet_length {α : Type} (series : List α) (offsets : List Int)
    (cl pl : Nat) :
    (windowSet series offsets cl pl).length = offsets.length := by
  simp [windowSet]

theorem pySlice_length {α : Type} (xs : List α) (a b : Int) :
    (pySlice xs a b).length
      = min (sliceIdx xs.length b - sliceIdx xs.length a)
          (xs.length - sliceIdx xs.length a) := by
  simp [pySlice]

theorem contextWindow_length {α : Type} (series : List α) (cl : Nat) (o : Int)
    (h : 0 ≤ o) :
    (contextWindow series cl o).length
      = min (o.toNat + cl) series.length - min o.toNat series.length := by
  simp only [contextWindow, tagRows_length, pySlice_length, sliceIdx]
  rw [if_neg (by omega), if_neg (by omega)]
  omega

theorem futureWindow_length {α : Type} (series : List α) (cl pl : Nat) (o : Int)
    (h : 0 ≤ o) :
    (futureWindow series cl pl o).length
      = min (o.toNat + cl + pl) series.length - min (o.toNat + cl) series.length := by
  simp only [futureWindow, tagRows_length, pySlice_length, sliceIdx]
  rw [if_neg (by omega), if_neg (by omega)]
  omega

theorem extract_foldl_spec {α : Type} (cl pl : Nat) (offsets : List Int)
    (st : ExtractState α) :
    (offsets.foldl (extractStep cl pl) st).series = st.series
  ∧ (offsets.foldl (extractStep cl pl) st).inputData
      = st.inputData ++ offsets.flatMap (fun o => contextWindow st.series cl o)
  ∧ (offsets.foldl (extractStep cl pl) st).groundTruthData
      = st.groundTruthData ++ offsets.flatMap (fun o => futureWindow st.series cl pl o) := by
  induction offsets generalizing st with
  | nil => simp
  | cons o os ih =>
    obtain ⟨h1, h2, h3⟩ := ih (extractStep cl pl st o)
    refine ⟨by simpa [extractStep] using h1, ?_, ?_⟩
    · rw [List.foldl_cons, h2]; simp [extractStep, List.append_assoc]
    · rw [List.foldl_cons, h3]; simp [extractStep, List.append_assoc]

/-- A small concrete series used by the witnesses. -/
def demoSeries : List Nat := [0, 1, 2, 3, 4, 5, 6, 7, 8, 9]

/-- Claim C1, counterexample: with a 20000-row series, `context_length =
512`, `prediction_length = 20`, the offset 19995 violates the range
constraint of the specification, yet the extraction does not fail: it
returns a one-entry WindowSet whose context window holds the 5 in-bounds
rows and whose future window is empty.  No RangeError exists in the code
path. -/
theorem c1_counterexample :
    ¬ specValidOffset 20000 19995 512 20
  ∧ (windowSet (List.replicate 20000 (0 : Nat)) [19995] 512 20).length = 1
  ∧ (contextWindow (List.replicate 20000 (0 : Nat)) 512 19995).length = 5
  ∧ (futureWindow (List.replicate 20000 (0 : Nat)) 512 20 19995).length = 0 := by
  refine ⟨by decide, by rw [windowSet_length]; rfl, ?_, ?_⟩
  · rw [contextWindow_length _ _ _ (by norm_num)]
    simp only [List.length_replicate]
    omega
  · rw [futureWindow_length _ _ _ _ (by norm_num)]
    simp only [List.length_replicate]
    omega

/-- Claim C1, amended: a non-negative start offset whose window would run
past the end of the series does not make the extraction fail; the loop
still produces exactly one (context, future) pair for the offset, the
context window holds the in-bounds part of its slice, and the future
window holds the rows remaining after the context slice (possibly
none). -/
theorem c1_out_of_range_truncates {α : Type} (series : List α) (o : Int) (cl pl : Nat)
    (h0 : 0 ≤ o) (hover : series.length < o.toNat + cl + pl) :
    (windowSet series [o] cl pl).length = 1
  ∧ (contextWindow series cl o).length
      = min (o.toNat + cl) series.length - min o.toNat series.length
  ∧ (futureWindow series cl pl o).length
      = series.length - min (o.toNat + cl) series.length := by
  refine ⟨by rw [windowSet_length]; rfl, contextWindow_length _ _ _ h0, ?_⟩
  rw [futureWindow_length _ _ _ _ h0]
  omega

theorem c1_out_of_range_truncates_witness :
    (0 : Int) ≤ 8 ∧ demoSeries.length < (8 : Int).toNat + 4 + 3
  ∧ ((windowSet demoSeries [8] 4 3).length = 1
      ∧ (contextWindow demoSeries 4 8).length
          = min ((8 : Int).toNat + 4) demoSeries.length - min (8 : Int).toNat demoSeries.length
      ∧ (futureWindow demoSeries 4 3 8).length
          = demoSeries.length - min ((8 : Int).toNat + 4) demoSeries.length) :=
  ⟨by decide, by decide, c1_out_of_range_truncates demoSeries 8 4 3 (by decide) (by decide)⟩

/-- Claim C2: for a list of start offsets that all satisfy the range
constraint, the extraction yields exactly one window pair per offset,
each context window has length exactly `context_length` and each future
window exactly `prediction_length`; the boundary case
`o + context_length + prediction_length = len(series)` is included. -/
theorem c2_valid_offsets_exact_lengths {α : Type} (series : List α)
    (offsets : List Int) (cl pl : Nat)
    (hv : ∀ o ∈ offsets, specValidOffset series.length o cl pl) :
    (windowSet series offsets cl pl).length = offsets.length
  ∧ ∀ o ∈ offsets,
      (contextWindow series cl o).length = cl
    ∧ (futureWindow series cl pl o).length = pl := by
  refine ⟨windowSet_length _ _ _ _, fun o ho => ?_⟩
  obtain ⟨h0, hle⟩ := hv o ho
  rw [contextWindow_length _ _ _ h0, futureWindow_length _ _ _ _ h0]
  omega

theorem c2_valid_offsets_exact_lengths_witness :
    (∀ o ∈ ([0, 3] : List Int), specValidOffset demoSeries.length o 4 3)
  ∧ ((windowSet demoSeries [0, 3] 4 3).length = ([0, 3] : List Int).length
      ∧ ∀ o ∈ ([0, 3] : List Int),
          (contextWindow demoSeries 4 o).length = 4
        ∧ (futureWindow demoSeries 4 3 o).length = 3) :=
  ⟨by decide, c2_valid_offsets_exact_lengths demoSeries [0, 3] 4 3 (by decide)⟩

/-- Claim C3: the extraction loop produces, for each offset `o` in the
given order, the context slice `series[o : o+context_length]` and the
future slice `series[o+context_length : o+context_length+prediction_length]`,
every row tagged with the identifier `id_<o>`, and the concatenated
tables `input_data` and `ground_truth_data` list those tagged slices in
exactly the given offset order. -/
theorem c3_windows_are_tagged_slices {α : Type} (series : List α)
    (offsets : List Int) (cl pl : Nat) :
    (extractAll series offsets cl pl).inputData
      = offsets.flatMap (fun o =>
          (pySlice series o (o + (cl : Int))).map (fun r => (r, idName o)))
  ∧ (extractAll series offsets cl pl).groundTruthData
      = offsets.flatMap (fun o =>
          (pySlice series (o + (cl : Int)) (o + (cl : Int) + (pl : Int))).map
            (fun r => (r, idName o))) := by
  obtain ⟨h1, h2, h3⟩ :=
    extract_foldl_spec (α := α) cl pl offsets ⟨series, [], []⟩
  constructor
  · rw [extractAll, h2]; simp [contextWindow, tagRows]
  · rw [extractAll, h3]; simp [futureWindow, tagRows]

/-- Claim C8: the Window Extractor is deterministic: two runs on
componentwise identical inputs produce identical loop states (hence
identical `input_data` and `ground_truth_data`) and identical WindowSet
contents. -/
theorem c8_extract_deterministic {α : Type} (s₁ s₂ : List α)
    (os₁ os₂ : List Int) (c₁ c₂ p₁ p₂ : Nat)
    (hs : s₁ = s₂) (ho : os₁ = os₂) (hc : c₁ = c₂) (hp : p₁ = p₂) :
    extractAll s₁ os₁ c₁ p₁ = extractAll s₂ os₂ c₂ p₂
  ∧ windowSet s₁ os₁ c₁ p₁ = windowSet s₂ os₂ c₂ p₂ := by
  subst hs; subst ho; subst hc; subst hp
  exact ⟨rfl, rfl⟩

theorem c8_extract_deterministic_witness :
    extractAll demoSeries [2, 5] 3 2 = extractAll demoSeries [2, 5] 3 2
  ∧ windowSet demoSeries [2, 5] 3 2 = windowSet demoSeries [2, 5] 3 2 :=
  c8_extract_deterministic demoSeries demoSeries [2, 5] [2, 5] 3 3 2 2 rfl rfl rfl rfl

/-- Claim C9: the extraction loop has no side effect on the source
series: the `input_df` component of the loop state after the whole run
is exactly the series that was passed in, because each window is built
from a copy of the sliced rows and only the copies are written. -/
theorem c9_extract_no_side_effects {α : Type} (series : List α)
    (offsets : List Int) (cl pl : Nat) :
    (extractAll series offsets cl pl).series = series :=
  (extract_foldl_spec cl pl offsets ⟨series, [], []⟩).1

/-- Claim C10: for non-negative start offsets the extraction is total:
it always yields one pair per offset, and each window length equals the
size of the in-bounds part of its slice interval (possibly zero), with
no error path. -/
theorem c10_truncating_totality {α : Type} (series : List α)
    (offsets : List Int) (cl pl : Nat)
    (h : ∀ o ∈ offsets, 0 ≤ o) :
    (windowSet series offsets cl pl).length = offsets.length
  ∧ ∀ o ∈ offsets,
      (contextWindow series cl o).length
        = min (o.toNat + cl) series.length - min o.toNat series.length
    ∧ (futureWindow series cl pl o).length
        = min (o.toNat + cl + pl) series.length - min (o.toNat + cl) series.length := by
  refine ⟨windowSet_length _ _ _ _, fun o ho =>
    ⟨contextWindow_length _ _ _ (h o ho), futureWindow_length _ _ _ _ (h o ho)⟩⟩

theorem c10_truncating_totality_witness :
    (∀ o ∈ ([7, 12] : List Int), 0 ≤ o)
  ∧ ((windowSet demoSeries [7, 12] 4 3).length = ([7, 12] : List Int).length
      ∧ ∀ o ∈ ([7, 12] : List Int),
          (contextWindow demoSeries 4 o).length
            = min (o.toNat + 4) demoSeries.length - min o.toNat demoSeries.length
        ∧ (futureWindow demoSeries 4 3 o).length
            = min (o.toNat + 4 + 3) demoSeries.length - min (o.toNat + 4) demoSeries.length) :=
  ⟨by decide, c10_truncating_totality demoSeries [7, 12] 4 3 (by decide)⟩

/-- A raw row of the bike-sharing CSV as `pd.read_csv` with
`parse_dates=["dteday"]` delivers it: the parsed date column (a midnight
instant, modelled as hours since 1970-01-01T00:00:00), the hour-of-day
column `hr`, and the two target columns, which may be null. -/
structure RawRow where
  dteday : Nat
  hr : Nat
  casual : Option Int
  registered : Option Int
deriving DecidableEq

/-- A loaded row after the loader cell ran: the timestamp column now
holds the ISO 8601 rendering of the resolved instant. -/
structure LoadedRow where
  dteday : String
  hr : Nat
  casual : Option Int
  registered : Option Int
deriving DecidableEq

/-- Left-pad a number to two digits. -/
def pad2 (n : Nat) : String :=
  if n < 10 then "0" ++ toString n else toString n

/-- Left-pad a number to four digits. -/
def pad4 (n : Nat) : String :=
  if n < 10 then "000" ++ toString n
  else if n < 100 then "00" ++ toString n
  else if n < 1000 then "0" ++ toString n
  else toString n

/-- Model of the external `pandas.Timestamp.isoformat` call on a
whole-hour instant, with instants counted in hours since
1970-01-01T00:00:00: convert the day count to a civil date by the
standard era/day-of-era computation and render
`YYYY-MM-DDTHH:00:00`. -/
def isoformat (t : Nat) : String :=
  let days := t / 24
  let hh := t % 24
  let z := days + 719468
  let era := z / 146097
  let doe := z % 146097
  let yoe := (doe - doe / 1460 + doe / 36524 - doe / 146096) / 365
  let y := yoe + era * 400
  let doy := doe - (365 * yoe + yoe / 4 - yoe / 100)
  let mp := (5 * doy + 2) / 153
  let d := doy - (153 * mp + 2) / 5 + 1
  let m := if mp < 10 then mp + 3 else mp - 9
  let y2 := if m ≤ 2 then y + 1 else y
  pad4 y2 ++ "-" ++ pad2 m ++ "-" ++ pad2 d ++ "T" ++ pad2 hh ++ ":00:00"

/-- The repair line of the loader cell:
`input_df[timestamp_column] = input_df[timestamp_column] +
input_df.hr.apply(lambda x: pd.Timedelta(x, unit="hr"))`. -/
def fixMissingHours (df : List RawRow) : List RawRow :=
  df.map (fun r => { r with dteday := r.dteday + r.hr })

/-- The stringification line of the loader cell:
`input_df[timestamp_column] = input_df[timestamp_column].apply(lambda x:
x.isoformat())`. -/
def isoformatColumn (df : List RawRow) : List LoadedRow :=
  df.map (fun r =>
    { dteday := isoformat r.dteday, hr := r.hr
      casual := r.casual, registered := r.registered })

/-- The whole loader cell: parse (already reflected in `RawRow`), repair
the timestamps, then render them as ISO 8601 strings.  Note that the
cell contains no null-filling operation. -/
def load (df : List RawRow) : List LoadedRow :=
  isoformatColumn (fixMissingHours df)

/-- Claim C4: the loader keeps one output row per input row, and the
timestamp of each loaded row is the ISO 8601 rendering of the parsed
calendar date shifted by the hour-of-day field: for a row with date `d`
and hour `h`, the repaired timestamp is `isoformat (d + h)`. -/
theorem c4_load_repairs_timestamps (df : List RawRow) :
    (load df).length = df.length
  ∧ (load df).map LoadedRow.dteday
      = df.map (fun r => isoformat (r.dteday + r.hr)) := by
  refine ⟨by simp [load, isoformatColumn, fixMissingHours], ?_⟩
  simp only [load, isoformatColumn, fixMissingHours, List.map_map]
  rfl

/-- Claim C5, evaluation at the failing input: the loader cell contains
no fill operation, so a source row whose `casual` target is null is
loaded with the null still in place, contradicting both the claim and
the markdown of the loading cell, which announces that null values are
filled. -/
theorem c5_nulls_survive_load :
    (load [{ dteday := 0, hr := 5, casual := none, registered := some 3 }]).map
      LoadedRow.casual = [none] := rfl

/-- Lexicographic comparison of character lists by code point, the order
Python uses on strings. -/
def charListLe : List Char → List Char → Bool
  | [], _ => true
  | _ :: _, [] => false
  | a :: as, b :: bs =>
    if a.toNat < b.toNat then true
    else if b.toNat < a.toNat then false
    else charListLe as bs

/-- Lexicographic string comparison by code point. -/
def strLe (a b : String) : Bool := charListLe a.data b.data

/-- Insert a string into a sorted list of strings. -/
def insertSorted (a : String) : List String → List String
  | [] => [a]
  | b :: bs => if strLe a b then a :: b :: bs else b :: insertSorted a bs

/-- Insertion sort on strings, modelling the sorted key order of
`pandas.DataFrame.groupby`. -/
def sortKeys : List String → List String
  | [] => []
  | a :: as => insertSorted a (sortKeys as)

/-- A row of a context or future window as the plotting loop reads it: a
timestamp instant and the plotted target value (`target_columns[0]`). -/
structure TRow where
  ts : Nat
  value : Int
deriving DecidableEq

/-- A forecast row of `df_out`: identifier, timestamp, predicted value
of the plotted target column. -/
structure FRow where
  fid : String
  ts : Nat
  value : Int
deriving DecidableEq

/-- The per-identifier data the plotting loop assembles: the
ground-truth timestamps and values (history tail plus future window) and
the predicted timestamps and values. -/
structure AlignedSeries where
  gtTs : List Nat
  gtVal : List Int
  predTs : List Nat
  predVal : List Int
deriving DecidableEq

/-- The distinct group keys of `input_data.groupby(id_column)`, sorted
as pandas sorts them. -/
def groupKeys (rows : List (TRow × String)) : List String :=
  sortKeys ((rows.map Prod.snd).eraseDups)

/-- The context-window group of identifier `g`: the rows of `input_data`
carrying that identifier, in table order. -/
def contextOf (inputData : List (TRow × String)) (g : String) : List TRow :=
  (inputData.filter (fun p => p.2 == g)).map Prod.fst

/-- The future-window rows of identifier `g`: the selection
`ground_truth_data[ground_truth_data[id_column] == grp_name]`. -/
def futureOf (gtData : List (TRow × String)) (g : String) : List TRow :=
  (gtData.filter (fun p => p.2 == g)).map Prod.fst

/-- The forecast rows of identifier `g`: the selection
`df_out[df_out[id_column] == grp_name]`. -/
def predOf (fc : List FRow) (g : String) : List FRow :=
  fc.filter (fun fr => fr.fid == g)

/-- One iteration of the plotting loop for group `g`: concatenate the
last `history` context rows with the future rows
(`pd.concat([grp[..].iloc[-history:], gt[..]])`) and select the forecast
rows of the group.  No sorting and no timestamp check is performed. -/
def alignOne (inputData gtData : List (TRow × String)) (fc : List FRow)
    (history : Nat) (g : String) : AlignedSeries :=
  let grp := contextOf inputData g
  let gt := futureOf gtData g
  let grpTail := pySlice grp (-(history : Int)) (grp.length : Int)
  let pred := predOf fc g
  { gtTs := grpTail.map TRow.ts ++ gt.map TRow.ts
    gtVal := grpTail.map TRow.value ++ gt.map TRow.value
    predTs := pred.map FRow.ts
    predVal := pred.map FRow.value }

/-- The whole plotting loop: one AlignedSeries per group key of
`input_data`, in group-key order. -/
def align (inputData gtData : List (TRow × String)) (fc : List FRow)
    (history : Nat) : List (String × AlignedSeries) :=
  (groupKeys inputData).map (fun g => (g, alignOne inputData gtData fc history g))

theorem pySlice_tail {α : Type} (l : List α) (h : Nat) (hp : 0 < h) :
    pySlice l (-(h : Int)) (l.length : Int) = l.drop (l.length - h) := by
  have hA : sliceIdx l.length (-(h : Int)) = l.length - h := by
    simp only [sliceIdx]
    rw [if_pos (by omega)]
    omega
  have hB : sliceIdx l.length ((l.length : Nat) : Int) = l.length := by
    simp only [sliceIdx]
    rw [if_neg (by omega)]
    omega
  rw [pySlice, hA, hB]
  apply List.take_of_length_le
  simp

/-- Claim C6, counterexample: the plotting loop does not sort the
forecast rows.  Given forecast rows for `id_0` whose timestamps arrive
in descending order, the predicted series it assembles is `[5, 4]`, not
ascending, so the predicted series is not ordered ascending by
timestamp as the claim states. -/
theorem c6_counterexample :
    (alignOne [(⟨1, 10⟩, "id_0")] [(⟨2, 11⟩, "id_0")]
        [⟨"id_0", 5, 9⟩, ⟨"id_0", 4, 8⟩] 1 "id_0").predTs = [5, 4]
  ∧ ¬ List.Pairwise (fun a b => a ≤ b)
      ((alignOne [(⟨1, 10⟩, "id_0")] [(⟨2, 11⟩, "id_0")]
          [⟨"id_0", 5, 9⟩, ⟨"id_0", 4, 8⟩] 1 "id_0").predTs) := by
  decide

/-- Claim C6, amended: for every identifier, the ground-truth series is
the last `history` rows of the context group followed by the full future
window, and the predicted series is exactly the forecast rows of that
identifier, each in the order the input tables give them; when the
context, future and forecast rows are themselves ascending by timestamp
(as they are in the pipeline, where the series is sorted and context
precedes future), both assembled series are ascending.  This needs
`history` positive: the code slices with `iloc[-history:]`. -/
theorem c6_alignment_ordered (I G : List (TRow × String)) (F : List FRow)
    (h : Nat) (g : String) (hh : 0 < h)
    (hctx : List.Pairwise (fun a b => a.ts < b.ts) (contextOf I g))
    (hfut : List.Pairwise (fun a b => a.ts < b.ts) (futureOf G g))
    (hcf : ∀ a ∈ contextOf I g, ∀ b ∈ futureOf G g, a.ts < b.ts)
    (hpred : List.Pairwise (fun a b => a.ts < b.ts) (predOf F g)) :
    (alignOne I G F h g).gtTs
      = ((contextOf I g).drop ((contextOf I g).length - h)).map TRow.ts
        ++ (futureOf G g).map TRow.ts
  ∧ (alignOne I G F h g).gtVal
      = ((contextOf I g).drop ((contextOf I g).length - h)).map TRow.value
        ++ (futureOf G g).map TRow.value
  ∧ (alignOne I G F h g).predTs = (predOf F g).map FRow.ts
  ∧ (alignOne I G F h g).predVal = (predOf F g).map FRow.value
  ∧ List.Pairwise (· < ·) (alignOne I G F h g).gtTs
  ∧ List.Pairwise (· < ·) (alignOne I G F h g).predTs := by
  have htail := pySlice_tail (contextOf I g) h hh
  have e1 : (alignOne I G F h g).gtTs
      = ((contextOf I g).drop ((contextOf I g).length - h)).map TRow.ts
        ++ (futureOf G g).map TRow.ts := by
    simp [alignOne, htail]
  have e2 : (alignOne I G F h g).gtVal
      = ((contextOf I g).drop ((contextOf I g).length - h)).map TRow.value
        ++ (futureOf G g).map TRow.value := by
    simp [alignOne, htail]
  refine ⟨e1, e2, rfl, rfl, ?_, ?_⟩
  · rw [e1, List.pairwise_append]
    refine ⟨?_, ?_, ?_⟩
    · rw [List.pairwise_map]
      exact List.Pairwise.sublist (List.drop_sublist _ _) hctx
    · rw [List.pairwise_map]
      exact hfut
    · intro a ha b hb
      simp only [List.mem_map] at ha hb
      obtain ⟨x, hx, rfl⟩ := ha
      obtain ⟨y, hy, rfl⟩ := hb
      exact hcf x ((List.drop_sublist _ _).subset hx) y hy
  · simpa [alignOne, List.pairwise_map] using hpred

/-- Concrete context window used by the C6 witness. -/
def c6Input : List (TRow × String) := [(⟨1, 10⟩, "id_0"), (⟨2, 11⟩, "id_0")]

/-- Concrete three-timestamp future window used by the C6 witness. -/
def c6Gt : List (TRow × String) :=
  [(⟨3, 12⟩, "id_0"), (⟨4, 13⟩, "id_0"), (⟨5, 14⟩, "id_0")]

/-- Concrete forecast on the same three timestamps, different values. -/
def c6Fc : List FRow :=
  [⟨"id_0", 3, 20⟩, ⟨"id_0", 4, 21⟩, ⟨"id_0", 5, 22⟩]

theorem c6_alignment_ordered_witness :
    (0 : Nat) < 2
  ∧ List.Pairwise (fun a b => a.ts < b.ts) (contextOf c6Input "id_0")
  ∧ List.Pairwise (fun a b => a.ts < b.ts) (futureOf c6Gt "id_0")
  ∧ (∀ a ∈ contextOf c6Input "id_0", ∀ b ∈ futureOf c6Gt "id_0", a.ts < b.ts)
  ∧ List.Pairwise (fun a b => a.ts < b.ts) (predOf c6Fc "id_0")
  ∧ ((alignOne c6Input c6Gt c6Fc 2 "id_0").gtTs
      = ((contextOf c6Input "id_0").drop ((contextOf c6Input "id_0").length - 2)).map TRow.ts
        ++ (futureOf c6Gt "id_0").map TRow.ts
    ∧ (alignOne c6Input c6Gt c6Fc 2 "id_0").gtVal
      = ((contextOf c6Input "id_0").drop ((contextOf c6Input "id_0").length - 2)).map TRow.value
        ++ (futureOf c6Gt "id_0").map TRow.value
    ∧ (alignOne c6Input c6Gt c6Fc 2 "id_0").predTs = (predOf c6Fc "id_0").map FRow.ts
    ∧ (alignOne c6Input c6Gt c6Fc 2 "id_0").predVal = (predOf c6Fc "id_0").map FRow.value
    ∧ List.Pairwise (· < ·) (alignOne c6Input c6Gt c6Fc 2 "id_0").gtTs
    ∧ List.Pairwise (· < ·) (alignOne c6Input c6Gt c6Fc 2 "id_0").predTs) :=
  ⟨by decide, by decide, by decide, by decide, by decide,
   c6_alignment_ordered c6Input c6Gt c6Fc 2 "id_0"
     (by decide) (by decide) (by decide) (by decide) (by decide)⟩

/-- Claim C7, counterexample: the plotting loop iterates over the group
keys of `input_data` alone.  With `id_1` absent from the forecast result
(so the claim demands it be dropped) and the only forecast rows for
`id_0` carrying timestamp 99, disjoint from the expected future
timestamps 3 and 4 (so the claim demands an AlignmentError), the loop
still processes both identifiers and returns normally. -/
theorem c7_counterexample :
    (align [(⟨1, 10⟩, "id_0"), (⟨2, 20⟩, "id_1")]
        [(⟨3, 30⟩, "id_0"), (⟨4, 40⟩, "id_1")]
        [⟨"id_0", 99, 7⟩] 1).map Prod.fst = ["id_0", "id_1"] := by
  decide

/-- Claim C7, amended: the aligner processes exactly the distinct
identifiers of the context-window table `input_data`, whether or not
they occur in the future windows or the forecast result; an identifier
with no forecast rows yields an empty predicted series rather than being
dropped with a warning; and no failure path exists, in particular no
AlignmentError on forecast timestamps disjoint from the future
window. -/
theorem c7_align_covers_input_ids (I G : List (TRow × String)) (F : List FRow)
    (h : Nat) :
    (align I G F h).map Prod.fst = groupKeys I
  ∧ ∀ g ∈ groupKeys I, (∀ fr ∈ F, fr.fid ≠ g) →
      (alignOne I G F h g).predTs = [] ∧ (alignOne I G F h g).predVal = [] := by
  constructor
  · simp only [align, List.map_map]
    exact List.map_id _
  · intro g hg hnone
    have hf : predOf F g = [] := by
      rw [predOf, List.filter_eq_nil_iff]
      intro fr hfr
      simpa using hnone fr hfr
    constructor <;> simp [alignOne, hf]

theorem c7_align_covers_input_ids_witness :
    (∀ fr ∈ ([⟨"id_9", 3, 5⟩] : List FRow), fr.fid ≠ "id_0")
  ∧ (align [(⟨1, 10⟩, "id_0")] [] [⟨"id_9", 3, 5⟩] 1).map Prod.fst
      = groupKeys [(⟨1, 10⟩, "id_0")]
  ∧ (alignOne [(⟨1, 10⟩, "id_0")] [] [⟨"id_9", 3, 5⟩] 1 "id_0").predTs = []
  ∧ (alignOne [(⟨1, 10⟩, "id_0")] [] [⟨"id_9", 3, 5⟩] 1 "id_0").predVal = [] :=
  ⟨by decide,
   (c7_align_covers_input_ids [(⟨1, 10⟩, "id_0")] [] [⟨"id_9", 3, 5⟩] 1).1,
   ((c7_align_covers_input_ids [(⟨1, 10⟩, "id_0")] [] [⟨"id_9", 3, 5⟩] 1).2
     "id_0" (by decide) (by decide)).1,
   ((c7_align_covers_input_ids [(⟨1, 10⟩, "id_0")] [] [⟨"id_9", 3, 5⟩] 1).2
     "id_0" (by decide) (by decide)).2⟩

end GraniteTS
